import Mathlib

/-!
A shallow embedding of the core of the `inspect_ec2_sandbox` repository
(`src/ec2sandbox/_ec2_sandbox_environment.py`, `src/ec2sandbox/schema.py`,
`src/ec2sandbox/_unpack_tags.py`) together with theorems checking the
natural-language specification against it.

Modelling conventions:
* Python strings and byte bodies are modelled as Lean `String`s, one `Char`
  per byte (the contents relevant here are ASCII); `String.length` stands
  for the byte length reported by the object store.
* The object store is a finite association list from key to body; a missing
  key models the store's not-found error.
* External services (the command relay / waiter, the object store, the EC2
  control plane, randomness and clock) are modelled as explicit inputs; the
  side effects the code performs against them (cancel calls, deletions,
  terminations, console prints) are returned as explicit effect records.
* Python exceptions are modelled with `Except`; each distinct exception
  class used by the code is a distinct constructor of `PyError`.
-/

namespace Ec2Sandbox

/-! ## Generic string helpers (Python `str.split`, substring test, ranged reads) -/

/-- Python `str.split(sep)` on a one-character separator, at the level of
character lists: `"".split(sep) = [""]`, `";".split(";") = ["", ""]`. -/
def splitSep (sep : Char) : List Char → List (List Char)
  | [] => [[]]
  | c :: rest =>
    if c = sep then [] :: splitSep sep rest
    else
      match splitSep sep rest with
      | [] => [[c]]
      | p :: ps => (c :: p) :: ps

/-- Joining with a one-character separator; left inverse of `splitSep` on
separator-free pieces.  Used only to state "input of the form k1=v1;k2=v2". -/
def joinSep (sep : Char) : List (List Char) → List Char
  | [] => []
  | [p] => p
  | p :: ps => p ++ sep :: joinSep sep ps

/-- `needle` occurs as a contiguous run at the front of `hay`. -/
def startsWithList (needle : List Char) : List Char → Bool
  | [] => needle.isEmpty
  | c :: rest =>
    match needle with
    | [] => true
    | n :: ns => n = c && startsWithList ns rest

/-- Python `s.startswith(p)`. -/
def strStartsWith (s p : String) : Bool :=
  startsWithList p.toList s.toList

/-- Python `needle in hay` for strings: contiguous substring test. -/
def containsSub (hay needle : String) : Bool :=
  go needle.toList hay.toList
where
  go (needle : List Char) : List Char → Bool
    | [] => needle.isEmpty
    | c :: rest => startsWithList needle (c :: rest) || go needle rest

/-- The first `n` bytes of a body: models an object-store ranged GET
`Range: bytes=0-(n-1)` on an object of at least `n` bytes. -/
def strTake (n : Nat) (s : String) : String :=
  String.mk (s.toList.take n)

/-! ## Tag codec (source: `src/ec2sandbox/_unpack_tags.py`) -/

/-- The exact `ValueError` message raised by `unpack_tags`.  In the source the
string is NOT an f-string, so the text `{tags}` is literal, not interpolated. -/
def tagsFormatErrMsg : String :=
  "Tags must be in the format \x27key1=value1;key2=value2\x27, but instead got \x7btags\x7d"

/-- `key, value = tag.split("=")`: succeeds exactly when the piece holds
exactly one `=`; anything else raises `ValueError` in the source. -/
def parseTag (piece : List Char) : Option (String × String) :=
  match splitSep '=' piece with
  | [k, v] => some (String.mk k, String.mk v)
  | _ => none

/-- The loop body of `unpack_tags`: every piece must parse, in order. -/
def parseTagList : List (List Char) → Option (List (String × String))
  | [] => some []
  | p :: ps =>
    match parseTag p, parseTagList ps with
    | some kv, some rest => some (kv :: rest)
    | _, _ => none

/-- `unpack_tags(tags)`: `None` or `""` yield the empty tuple (the `if tags:`
truthiness test); otherwise split on `;`, then each pair on `=`; any pair
without exactly one `=` raises `ValueError(tagsFormatErrMsg)`. -/
def unpackTags (tags : Option String) : Except String (List (String × String)) :=
  match tags with
  | none => .ok []
  | some t =>
    if t.toList = [] then .ok []
    else
      match parseTagList (splitSep ';' t.toList) with
      | some l => .ok l
      | none => .error tagsFormatErrMsg

/-- Specification-side encoder for the claim "tag string of the form
`k1=v1;k2=v2`": it renders an ordered pair sequence in exactly that shape.
Not a source function (the source has no packer); used only to state the
round-trip property. -/
def encodeTags (ps : List (String × String)) : String :=
  String.mk (joinSep ';' (ps.map fun kv => kv.1.toList ++ '=' :: kv.2.toList))

/-! ## Configuration schema (source: `src/ec2sandbox/schema.py`) -/

/-- `_Ec2ExistingInfraSettings`: the environment-derived settings record; every
field optional.  Field `s3KeyPref` models source field `s3_key_prefix`. -/
structure EcSettings where
  region : Option String
  vpc_id : Option String
  security_group_id : Option String
  subnet_id : Option String
  ami_id : Option String
  instance_type : Option String
  instance_profile : Option String
  s3_bucket : Option String
  s3KeyPref : Option String
  extra_tags_str : Option String
deriving Repr, DecidableEq

/-- `Ec2SandboxEnvironmentConfig`: a frozen pydantic model of plain `str`
fields with no custom validator — construction checks types only.
Field `s3KeyPref` models source field `s3_key_prefix`. -/
structure Ec2SandboxEnvironmentConfig where
  region : String
  vpc_id : String
  security_group_id : String
  subnet_id : String
  ami_id : String
  instance_type : String
  instance_profile : String
  s3_bucket : String
  s3KeyPref : String
  extra_tags : List (String × String)
deriving Repr, DecidableEq

/-- Keyword overrides accepted by `from_settings(**kwargs)`; `none` means the
keyword was not passed (`params.update(kwargs)` then keeps the settings
value). -/
structure FromSettingsKwargs where
  region : Option String := none
  vpc_id : Option String := none
  security_group_id : Option String := none
  subnet_id : Option String := none
  ami_id : Option String := none
  instance_type : Option String := none
  instance_profile : Option String := none
  s3_bucket : Option String := none
  s3KeyPref : Option String := none
  extra_tags : Option (List (String × String)) := none
deriving Repr, DecidableEq

/-- The `ValueError` message for a key prefix with a leading slash. -/
def keyPrefErrMsg (p : String) : String :=
  "S3 key prefix \x27" ++ p ++ "\x27 must not start with a \x27/\x27"

/-- The `ValueError` message when no region can be resolved. -/
def regionErrMsg : String :=
  "Region must be specified either in settings, or as an environment variable INSPECT_EC2_SANDBOX_REGION or AWS_REGION."

/-- The `ValueError` message when the Ubuntu AMI lookup finds nothing. -/
def amiErrMsg : String :=
  "Could not find Ubuntu 24.04 AMI ID in SSM Parameter Store"

/-- Pydantic validation failure on `cls(**params)`: a required `str` field
received `None`. -/
def validationErrMsg : String :=
  "validation error: field required"

/-- `Ec2SandboxEnvironmentConfig.from_settings`: builds the params dict from
settings (unpacking the tag string, which may raise first), applies keyword
overrides, resolves the region (falling back to the `AWS_REGION` environment
variable, modelled by `awsRegionEnv`), the AMI (falling back to the SSM
Ubuntu-24.04 lookup, modelled by `amiLookup`), the instance type default and
the key-prefix default, rejects a key prefix starting with `/`, then
constructs the config (pydantic rejects any remaining `None` field). -/
def from_settings (settings : EcSettings) (kw : FromSettingsKwargs)
    (awsRegionEnv : Option String) (amiLookup : String → Option String) :
    Except String Ec2SandboxEnvironmentConfig :=
  match unpackTags settings.extra_tags_str with
  | .error e => .error e
  | .ok tags0 =>
    match (kw.region.orElse fun _ => settings.region).orElse fun _ => awsRegionEnv with
    | none => .error regionErrMsg
    | some region =>
      match (kw.ami_id.orElse fun _ => settings.ami_id).orElse fun _ => amiLookup region with
      | none => .error amiErrMsg
      | some ami =>
        if strStartsWith ((kw.s3KeyPref.orElse fun _ => settings.s3KeyPref).getD "") "/" then
          .error (keyPrefErrMsg ((kw.s3KeyPref.orElse fun _ => settings.s3KeyPref).getD ""))
        else
          match kw.vpc_id.orElse fun _ => settings.vpc_id,
              kw.security_group_id.orElse fun _ => settings.security_group_id,
              kw.subnet_id.orElse fun _ => settings.subnet_id,
              kw.instance_profile.orElse fun _ => settings.instance_profile,
              kw.s3_bucket.orElse fun _ => settings.s3_bucket with
          | some vpc, some sg, some sn, some iprof, some sb =>
            .ok ⟨region, vpc, sg, sn, ami,
              (kw.instance_type.orElse fun _ => settings.instance_type).getD "t3a.large",
              iprof, sb, (kw.s3KeyPref.orElse fun _ => settings.s3KeyPref).getD "",
              kw.extra_tags.getD tags0⟩
          | _, _, _, _, _ => .error validationErrMsg

/-- `Ec2SandboxEnvironment.config_deserialize`: calls the pydantic constructor
directly — no key-prefix check of any kind. -/
def config_deserialize (region vpc_id security_group_id subnet_id ami_id
    instance_type instance_profile s3_bucket s3KeyPref : String)
    (extra_tags : List (String × String)) : Ec2SandboxEnvironmentConfig :=
  ⟨region, vpc_id, security_group_id, subnet_id, ami_id, instance_type,
    instance_profile, s3_bucket, s3KeyPref, extra_tags⟩

/-! ## Object store model and `_read_s3_file_or_blank` / `_get_s3_file_size` -/

/-- The object store: key → body, as a finite association list. -/
abbrev Store := List (String × String)

/-- `get_object` / `head_object` lookup: `none` models the not-found error
(`NoSuchKey` from GET, the 404 `ClientError` from HEAD). -/
def s3Lookup (store : Store) (key : String) : Option String :=
  match store with
  | [] => none
  | (k, v) :: rest => if k = key then some v else s3Lookup rest key

/-- Decidable equality for `Except`, so concrete runs can be checked by
`decide`. -/
instance {ε α : Type} [DecidableEq ε] [DecidableEq α] :
    DecidableEq (Except ε α)
  | .error a, .error b =>
    if h : a = b then .isTrue (congrArg Except.error h)
    else .isFalse fun hc => h (Except.error.inj hc)
  | .error _, .ok _ => .isFalse fun hc => Except.noConfusion hc
  | .ok _, .error _ => .isFalse fun hc => Except.noConfusion hc
  | .ok a, .ok b =>
    if h : a = b then .isTrue (congrArg Except.ok h)
    else .isFalse fun hc => h (Except.ok.inj hc)

/-- Python exception classes raised by the embedded code paths. -/
inductive PyError where
  | timeoutError (msg : String)
  | permissionError (msg : String)
  | outputLimitExceeded (limitStr : String) (truncatedOutput : Option String)
  | isADirectoryError (file : String)
  | fileNotFoundError (msg : String)
deriving Repr, DecidableEq

/-- `_get_s3_file_size`: HEAD the object; a 404 becomes `KeyError` (`none`). -/
def getS3FileSize (store : Store) (key : String) : Option Nat :=
  match s3Lookup store key with
  | none => none
  | some content => some content.length

/-- `_read_s3_file_or_blank(key, limit_bytes)`: probe the size first; a
missing key (`KeyError`/`NoSuchKey`) returns `""`; size `>= limit_bytes`
fetches only the first `limit_bytes` bytes and raises
`OutputLimitExceededError("10 MiB", that prefix)`; otherwise the whole body
is returned. -/
def readS3FileOrBlank (store : Store) (key : String) (limitBytes : Nat) :
    Except PyError String :=
  match getS3FileSize store key with
  | none => .ok ""
  | some fileSize =>
    match s3Lookup store key with
    | none => .ok ""
    | some content =>
      if limitBytes ≤ fileSize then
        .error (.outputLimitExceeded "10 MiB" (some (strTake limitBytes content)))
      else
        .ok content

/-! ## `_run_command` (command dispatch, completion wait, retrieval, janitor) -/

/-- Success flag, return code, stdout, stderr: `inspect_ai`'s `ExecResult`. -/
structure ExecResult where
  success : Bool
  returncode : Int
  stdout : String
  stderr : String
deriving Repr, DecidableEq

/-- The relay's last polled response inside a `WaiterError`: the optional
`"Status"` and `"ResponseCode"` entries of the response dict. -/
structure LastResponse where
  status : Option String
  responseCode : Option Int
deriving Repr, DecidableEq

/-- Outcome of `waiter.wait(...)` on `command_executed`: either the command
reached the waiter's success state, or a `WaiterError` was raised carrying a
last response (`none` models an empty/falsy response dict). -/
inductive WaitOutcome where
  | completed
  | waiterError (lastResponse : Option LastResponse)
deriving Repr, DecidableEq

/-- One `_run_command` interaction with the external services: the command id
the relay assigned at `send_command`, what the completion waiter did, the
`"ResponseCode"` entry of `get_command_invocation` (absent ⇒ `none`), and the
object-store contents at retrieval time. -/
structure CommandWorld where
  commandId : String
  waitOutcome : WaitOutcome
  invocationResponseCode : Option Int
  store : Store
deriving Repr, DecidableEq

/-- The `Parameters` dict sent to the relay: `commands` and
`executionTimeout`. -/
structure CommandParams where
  commands : List String
  executionTimeout : List String
deriving Repr, DecidableEq

/-- The side effects `_run_command` performed: the `Parameters` submitted
via `send_command`, the completion waiter's `MaxAttempts` (`timeout or
3600`, delay 1), `cancel_command` calls (command id, instance id),
`delete_object` keys, and `_delete_s3_prefix` calls, each in order of
occurrence. -/
structure RunEffects where
  submittedParams : CommandParams
  waiterMaxAttempts : Nat
  cancelledCommands : List (String × String)
  deletedKeys : List String
  deletedPrefs : List String
deriving Repr, DecidableEq

/-- The S3 key the relay writes stdout to for one invocation. -/
def stdoutKeyOf (keyPref commandId instanceId : String) : String :=
  keyPref ++ commandId ++ "/" ++ instanceId ++ "/awsrunShellScript/0.awsrunShellScript/stdout"

/-- The S3 key the relay writes stderr to for one invocation. -/
def stderrKeyOf (keyPref commandId instanceId : String) : String :=
  keyPref ++ commandId ++ "/" ++ instanceId ++ "/awsrunShellScript/0.awsrunShellScript/stderr"

/-- Python `x or d` for `Optional[int]`: `None` and `0` both fall back. -/
def orDefault (v : Option Nat) (d : Nat) : Nat :=
  match v with
  | none => d
  | some n => if n = 0 then d else n

/-- `"Status" in last_response and last_response["Status"]`. -/
def lastRespStatus : Option LastResponse → Option String
  | none => none
  | some lr => lr.status

/-- The `except WaiterError` return code:
`we.last_response.get("ResponseCode", 1) if we.last_response else 1`. -/
def waiterErrReturnCode : Option LastResponse → Int
  | none => 1
  | some lr => lr.responseCode.getD 1

/-- `Ec2SandboxEnvironment._run_command(s3_key_prefix, params, timeout)`.

The submission itself (`send_command` with `AWS-RunShellScript`, the output
bucket and `keyPref`) and the completion wait (`WaiterConfig` delay 1,
`MaxAttempts = timeout or 3600`) are external interactions captured by `w`.
On waiter success: read stdout and stderr through `readS3FileOrBlank`
(truncation propagates), take the return code from `get_command_invocation`
defaulting missing to `0`.  On `WaiterError`: if the last response's status
is `"InProgress"`, cancel the command and raise `TimeoutError`; otherwise
read stdout/stderr, default the return code to `1`, and reinterpret a stderr
containing the exit-126 marker as `PermissionError` (which skips the
deletions below).  Only when an `ExecResult` is produced are the stdout key,
stderr key and the per-invocation prefix deleted. -/
def runCommand (instanceId keyPref : String) (params : CommandParams)
    (limitBytes : Nat) (timeout : Option Nat) (w : CommandWorld) :
    Except PyError ExecResult × RunEffects :=
  match w.waitOutcome with
  | .completed =>
    match readS3FileOrBlank w.store (stdoutKeyOf keyPref w.commandId instanceId) limitBytes with
    | .error e => (.error e, ⟨params, orDefault timeout 3600, [], [], []⟩)
    | .ok stdout =>
      match readS3FileOrBlank w.store (stderrKeyOf keyPref w.commandId instanceId) limitBytes with
      | .error e => (.error e, ⟨params, orDefault timeout 3600, [], [], []⟩)
      | .ok stderr =>
        let rc : Int := w.invocationResponseCode.getD 0
        (.ok ⟨rc == 0, rc, stdout, stderr⟩,
         ⟨params, orDefault timeout 3600, [],
          [stdoutKeyOf keyPref w.commandId instanceId,
           stderrKeyOf keyPref w.commandId instanceId],
          [keyPref ++ w.commandId ++ "/"]⟩)
  | .waiterError lastResp =>
    if lastRespStatus lastResp = some "InProgress" then
      (.error (.timeoutError "Command execution timed out."),
       ⟨params, orDefault timeout 3600, [(w.commandId, instanceId)], [], []⟩)
    else
      match readS3FileOrBlank w.store (stdoutKeyOf keyPref w.commandId instanceId) limitBytes with
      | .error e => (.error e, ⟨params, orDefault timeout 3600, [], [], []⟩)
      | .ok stdout =>
        match readS3FileOrBlank w.store (stderrKeyOf keyPref w.commandId instanceId) limitBytes with
        | .error e => (.error e, ⟨params, orDefault timeout 3600, [], [], []⟩)
        | .ok stderr =>
          let rc : Int := waiterErrReturnCode lastResp
          if containsSub stderr "failed to run commands: exit status 126" then
            (.error (.permissionError ("Permission denied executing command: " ++ stderr)),
             ⟨params, orDefault timeout 3600, [], [], []⟩)
          else
            (.ok ⟨rc == 0, rc, stdout, stderr⟩,
             ⟨params, orDefault timeout 3600, [],
              [stdoutKeyOf keyPref w.commandId instanceId,
               stderrKeyOf keyPref w.commandId instanceId],
              [keyPref ++ w.commandId ++ "/"]⟩)

/-! ## `shlex.quote` / `shlex.join` (Python stdlib, as used by `exec`) -/

/-- The characters `shlex`'s `_find_unsafe` regex treats as safe:
ASCII `\w` plus at-sign, percent, plus, equals, colon, comma, dot, slash,
hyphen. -/
def shlexSafeChar (c : Char) : Bool :=
  ('a' ≤ c && c ≤ 'z') || ('A' ≤ c && c ≤ 'Z') || ('0' ≤ c && c ≤ '9')
    || "_@%+=:,./-".toList.contains c

/-- `shlex.quote(s)`: empty → `''`; all-safe → unchanged; otherwise wrap in
single quotes, rewriting each embedded single quote to `'"'"'`. -/
def shlexQuote (s : String) : String :=
  if s = "" then "\x27\x27"
  else if s.toList.all shlexSafeChar then s
  else
    "\x27" ++ String.mk (s.toList.flatMap fun c =>
      if c = '\x27' then "\x27\x22\x27\x22\x27".toList else [c]) ++ "\x27"

/-- `shlex.join(cmd)`: quote each word and join with single spaces. -/
def shlexJoin (cmd : List String) : String :=
  String.intercalate " " (cmd.map shlexQuote)

/-! ## `exec` (source lines 153-190) -/

/-- `_s3_key_prefix(operation)`:
`{config_prefix}{operation}/{timestamp}-{rand}/`; the clock and the 8
random characters are external inputs. -/
def s3KeyFor (configPref operation timestamp rand : String) : String :=
  configPref ++ operation ++ "/" ++ timestamp ++ "-" ++ rand ++ "/"

/-- `Ec2SandboxEnvironment.exec(cmd, input, cwd, env, user, timeout, ...)`:
warn (only) about `input` and `user`; build the shell batch — one `export`
line per env entry (key and value shell-quoted, in dict order), an optional
`cd`, then the joined command — with `executionTimeout = [str(timeout or
3600)]`; then dispatch through `_run_command` with the freshly generated
exec key prefix.  Returns (warnings, params submitted, `_run_command`
outcome and effects). -/
def execModel (instanceId : String) (limitBytes : Nat) (cmd : List String)
    (inputArg : Option String) (cwd : Option String)
    (env : List (String × String)) (user : Option String)
    (timeout : Option Nat) (keyPref : String) (w : CommandWorld) :
    List String × (CommandParams × (Except PyError ExecResult × RunEffects)) :=
  let warnings :=
    (if inputArg.isSome then ["Input parameter not supported by EC2 sandbox"] else [])
      ++ (if user.isSome then ["User parameter not supported by EC2 sandbox"] else [])
  let commands :=
    (env.map fun kv => "export " ++ shlexQuote kv.1 ++ "=" ++ shlexQuote kv.2)
      ++ (match cwd with
          | some d => ["cd " ++ shlexQuote d]
          | none => [])
      ++ [shlexJoin cmd]
  let params : CommandParams :=
    ⟨commands, [toString (orDefault timeout 3600)]⟩
  (warnings, params, runCommand instanceId keyPref params limitBytes timeout w)

/-! ## `_wait_for_ssm` (source lines 35-48) -/

/-- One record of the relay's `describe_instance_information` response. -/
structure InstanceInfo where
  pingStatus : String
deriving Repr, DecidableEq

/-- The body of `_wait_for_ssm` does NOT raise ("ready") exactly when the
filtered list is non-empty and its first record's `PingStatus` is
`"Online"`. -/
def ssmReady (resp : List InstanceInfo) : Bool :=
  match resp with
  | [] => false
  | first :: _ => first.pingStatus == "Online"

/-- `stop_after_attempt(20)`. -/
def ssmMaxAttempts : Nat := 20

/-- `wait_fixed(30)`: the delay before every re-attempt, independent of the
attempt number (no backoff growth). -/
def ssmDelayBeforeAttempt (attempt : Nat) : Nat := 30

/-- The tenacity retry loop: run `check` on attempts `i, i+1, ...` with
`fuel` attempts left; `some j` means attempt `j` succeeded, `none` means the
budget was exhausted and `RetryError` is raised. -/
def retryFixedLoop (check : Nat → Bool) : Nat → Nat → Option Nat
  | 0, _ => none
  | fuel + 1, i => if check i then some i else retryFixedLoop check fuel (i + 1)

/-- `_wait_for_ssm(instance_id, region)` as a function of the relay's
response on each attempt: `some i` means it returned `True` on attempt `i`
(0-based); `none` means 20 attempts were exhausted and tenacity raised
`RetryError`. -/
def waitForSsm (responses : Nat → List InstanceInfo) : Option Nat :=
  retryFixedLoop (fun i => ssmReady (responses i)) ssmMaxAttempts 0

/-! ## `read_file` (source lines 415-495) -/

/-- The S3 fetch inside `read_file` (source lines 461-487): size probe, then
either a ranged GET that raises `OutputLimitExceededError(limitStr, None)`
when size `>=` the read limit, or a full GET; a missing key becomes
`FileNotFoundError`. -/
def readFileS3Fetch (store : Store) (fileKey file : String)
    (readLimit : Nat) (limitStr : String) : Except PyError String :=
  match s3Lookup store fileKey with
  | none => .error (.fileNotFoundError ("File " ++ file ++ " does not exist in S3 bucket."))
  | some content =>
    if readLimit ≤ content.length then
      .error (.outputLimitExceeded limitStr none)
    else
      .ok content

/-- `Ec2SandboxEnvironment.read_file(file, text)`: build the remote script
(the directory check and the presigned `curl` upload — the presigned URL is
the external input `url`), dispatch it through `_run_command` under a fresh
exec key prefix, map remote failure to `IsADirectoryError` or
`FileNotFoundError` by matching stderr text, then fetch the uploaded object
through `readFileS3Fetch` and delete it on success.  The returned effects
are the `_run_command` effects plus the keys deleted by `read_file` itself;
`text` selects `str` vs `bytes` decoding, identical at the byte level
modelled here. -/
def readFileModel (instanceId configPref : String) (limitBytes : Nat)
    (readLimit : Nat) (limitStr : String) (file : String) (text : Bool)
    (url : String) (tsA randA tsB randB : String) (w : CommandWorld) :
    Except PyError String × RunEffects × List String :=
  let fileKey := s3KeyFor configPref "read_file" tsA randA ++ file
  let commands :=
    ["#!/bin/sh", "set -e",
     shlexJoin ["test", "-d", file] ++ "&& echo \x27Is a directory\x27 1>&2 && exit 1",
     shlexJoin ["curl", "--fail-with-body", "--verbose", "--upload-file", file, url]]
  let params : CommandParams := ⟨commands, ["3600"]⟩
  let rr := runCommand instanceId (s3KeyFor configPref "exec" tsB randB) params
    limitBytes (some 3600) w
  match rr.1 with
  | .error e => (.error e, rr.2, [])
  | .ok result =>
    if !result.success then
      if containsSub result.stderr "Is a directory" then
        (.error (.isADirectoryError file), rr.2, [])
      else
        (.error (.fileNotFoundError ("Failed to read file " ++ file ++ ": " ++ result.stderr)),
         rr.2, [])
    else
      match readFileS3Fetch w.store fileKey file readLimit limitStr with
      | .error e => (.error e, rr.2, [])
      | .ok content => (.ok content, rr.2, [fileKey])

/-! ## `cli_cleanup` (source lines 192-254) -/

/-- One instance of the control plane's filtered `describe_instances`
response (marker-tagged, in a non-terminated state). -/
structure DescribedInstance where
  instanceId : String
  tags : List (String × String)
deriving Repr, DecidableEq

/-- The external circumstances of one `cli_cleanup` run. -/
structure CleanupWorld where
  instances : List DescribedInstance
  isInteractiveShell : Bool
  isCI : Bool
  isPytest : Bool
  confirmAnswer : Bool
deriving Repr, DecidableEq

/-- Observable actions of `cli_cleanup`, in order. -/
inductive CleanupEvent where
  | printedTable (rows : List (String × String))
  | printedMsg (msg : String)
  | terminated (ids : List String)
deriving Repr, DecidableEq

/-- The value of the `Name` tag shown in the table (first match, else ""). -/
def nameTagOf : List (String × String) → String
  | [] => ""
  | (k, v) :: rest => if k = "Name" then v else nameTagOf rest

/-- `Ec2SandboxEnvironment.cli_cleanup(id)`: with `id=None`, list
marker-tagged instances; if any, print the table, ask for confirmation only
in an interactive non-CI non-pytest shell (a `No` prints `Cancelled.` and
stops), then terminate them all in one call.  With a non-null `id`, print
the not-implemented message — no exception is raised and nothing is
terminated.  The result is `.ok` on every path of the function body itself. -/
def cli_cleanup (id : Option String) (w : CleanupWorld) :
    Except PyError (List CleanupEvent) :=
  match id with
  | none =>
    if w.instances.isEmpty then
      .ok [.printedMsg "\nNo EC2 sandbox instances found to clean up.\n"]
    else
      let rows := w.instances.map fun i => (i.instanceId, nameTagOf i.tags)
      if w.isInteractiveShell && !w.isCI && !w.isPytest && !w.confirmAnswer then
        .ok [.printedTable rows, .printedMsg "Cancelled."]
      else
        .ok [.printedTable rows, .terminated (w.instances.map (·.instanceId))]
  | some _ =>
    .ok [.printedMsg "\n[red]Cleanup by ID not implemented[/red]\n"]

/-! ## Shared helper lemmas -/

theorem strMk_toList (s : String) : String.mk s.toList = s := rfl

theorem strTake_length (n : Nat) (s : String) (h : n ≤ s.length) :
    (strTake n s).length = n := by
  show (s.toList.take n).length = n
  rw [List.length_take]
  exact Nat.min_eq_left h

/-- Whenever `_run_command` produces an `ExecResult`, its effects are: no
cancellation, both output keys deleted, the per-invocation prefix deleted;
and the return code is the invocation's (default 0) on the normal path, the
waiter error's (default 1) on the waiter-error path. -/
theorem runCommand_ok_spec (iid keyPref : String) (params : CommandParams)
    (limitBytes : Nat) (timeout : Option Nat) (w : CommandWorld)
    (r : ExecResult)
    (h : (runCommand iid keyPref params limitBytes timeout w).1 = .ok r) :
    (runCommand iid keyPref params limitBytes timeout w).2
      = ⟨params, orDefault timeout 3600, [],
         [stdoutKeyOf keyPref w.commandId iid, stderrKeyOf keyPref w.commandId iid],
         [keyPref ++ w.commandId ++ "/"]⟩
    ∧ r.returncode
        = (match w.waitOutcome with
           | .completed => w.invocationResponseCode.getD 0
           | .waiterError lastResp => waiterErrReturnCode lastResp) := by
  rcases hwo : w.waitOutcome with _ | lastResp
  · rcases hso : readS3FileOrBlank w.store (stdoutKeyOf keyPref w.commandId iid) limitBytes
        with e | stdout
    · simp [runCommand, hwo, hso] at h
    · rcases hse : readS3FileOrBlank w.store (stderrKeyOf keyPref w.commandId iid) limitBytes
          with e | stderr
      · simp [runCommand, hwo, hso, hse] at h
      · simp only [runCommand, hwo, hso, hse, Prod.fst, Except.ok.injEq] at h ⊢
        subst h
        simp
  · by_cases hip : lastRespStatus lastResp = some "InProgress"
    · simp [runCommand, hwo, hip] at h
    · rcases hso : readS3FileOrBlank w.store (stdoutKeyOf keyPref w.commandId iid) limitBytes
          with e | stdout
      · simp [runCommand, hwo, hip, hso] at h
      · rcases hse : readS3FileOrBlank w.store (stderrKeyOf keyPref w.commandId iid) limitBytes
            with e | stderr
        · simp [runCommand, hwo, hip, hso, hse] at h
        · by_cases hperm : containsSub stderr "failed to run commands: exit status 126" = true
          · simp [runCommand, hwo, hip, hso, hse, hperm] at h
          · simp only [runCommand, hwo, hip, hso, hse, hperm, Bool.false_eq_true,
              if_false, Prod.fst, Except.ok.injEq] at h ⊢
            subst h
            simp

/-! ## Claims -/

/-- C1: when the completion wait exhausts its budget (`WaiterError`) while
the relay's last response still reports status `"InProgress"`,
`_run_command` issues `cancel_command` for that command id and instance id,
raises `TimeoutError` (a class distinct from every other error the function
raises), and returns no `ExecResult`. -/
theorem run_command_inprogress_cancels_then_times_out
    (iid keyPref : String) (params : CommandParams) (limitBytes : Nat)
    (timeout : Option Nat) (w : CommandWorld) (lr : LastResponse)
    (hw : w.waitOutcome = .waiterError (some lr))
    (hs : lr.status = some "InProgress") :
    runCommand iid keyPref params limitBytes timeout w
      = (.error (.timeoutError "Command execution timed out."),
         ⟨params, orDefault timeout 3600, [(w.commandId, iid)], [], []⟩) := by
  unfold runCommand
  rw [hw]
  simp [lastRespStatus, hs]

theorem run_command_inprogress_witness :
    (⟨"cmd-1", .waiterError (some ⟨some "InProgress", none⟩), none, []⟩ :
        CommandWorld).waitOutcome
        = .waiterError (some ⟨some "InProgress", none⟩)
    ∧ (⟨some "InProgress", none⟩ : LastResponse).status = some "InProgress"
    ∧ runCommand "i-0abc" "pre/" ⟨["echo hi"], ["60"]⟩ 100 (some 60)
        ⟨"cmd-1", .waiterError (some ⟨some "InProgress", none⟩), none, []⟩
      = (.error (.timeoutError "Command execution timed out."),
         ⟨⟨["echo hi"], ["60"]⟩, orDefault (some 60) 3600,
          [("cmd-1", "i-0abc")], [], []⟩) :=
  ⟨rfl, rfl,
   run_command_inprogress_cancels_then_times_out "i-0abc" "pre/"
     ⟨["echo hi"], ["60"]⟩ 100 (some 60) _ _ rfl rfl⟩

/-- C3: with a stored object of exactly `limit - 1` bytes,
`_read_s3_file_or_blank` returns the full content untruncated; at exactly
`limit` bytes or more, the exec-output path raises
`OutputLimitExceededError` carrying a partial content of exactly `limit`
bytes, while the `read_file` fetch path raises it carrying no content. -/
theorem read_or_blank_truncation_boundary (store : Store) (key content : String)
    (limit : Nat) (hlook : s3Lookup store key = some content) :
    (content.length + 1 = limit → readS3FileOrBlank store key limit = .ok content)
    ∧ (limit ≤ content.length →
        readS3FileOrBlank store key limit
          = .error (.outputLimitExceeded "10 MiB" (some (strTake limit content)))
          ∧ (strTake limit content).length = limit)
    ∧ ∀ (file limitStr : String), limit ≤ content.length →
        readFileS3Fetch store key file limit limitStr
          = .error (.outputLimitExceeded limitStr none) := by
  refine ⟨?_, ?_, ?_⟩
  · intro h
    simp only [readS3FileOrBlank, getS3FileSize, hlook]
    rw [if_neg (by omega)]
  · intro h
    simp only [readS3FileOrBlank, getS3FileSize, hlook]
    rw [if_pos h]
    exact ⟨rfl, strTake_length limit content h⟩
  · intro file limitStr h
    simp only [readFileS3Fetch, hlook]
    rw [if_pos h]

theorem read_or_blank_truncation_witness :
    s3Lookup [("k", "abc")] "k" = some "abc"
    ∧ readS3FileOrBlank [("k", "abc")] "k" 4 = .ok "abc"
    ∧ readS3FileOrBlank [("k", "abc")] "k" 3
        = .error (.outputLimitExceeded "10 MiB" (some (strTake 3 "abc")))
    ∧ (strTake 3 "abc").length = 3
    ∧ readFileS3Fetch [("k", "abc")] "k" "f.txt" 3 "100 MiB"
        = .error (.outputLimitExceeded "100 MiB" none) :=
  ⟨by decide,
   (read_or_blank_truncation_boundary [("k", "abc")] "k" "abc" 4 (by decide)).1
     (by decide),
   ((read_or_blank_truncation_boundary [("k", "abc")] "k" "abc" 3 (by decide)).2.1
     (by decide)).1,
   ((read_or_blank_truncation_boundary [("k", "abc")] "k" "abc" 3 (by decide)).2.1
     (by decide)).2,
   (read_or_blank_truncation_boundary [("k", "abc")] "k" "abc" 3 (by decide)).2.2
     "f.txt" "100 MiB" (by decide)⟩

/-- C4: a key absent from the object store makes `_read_s3_file_or_blank`
return `""` for every limit value; the not-found outcome of the size probe
or of the content fetch is never surfaced as an error. -/
theorem read_or_blank_missing_key_blank (store : Store) (key : String)
    (h : s3Lookup store key = none) :
    ∀ limitBytes : Nat, readS3FileOrBlank store key limitBytes = .ok "" := by
  intro limitBytes
  unfold readS3FileOrBlank getS3FileSize
  rw [h]

theorem read_or_blank_missing_key_witness :
    s3Lookup [("other", "x")] "nope" = none
    ∧ readS3FileOrBlank [("other", "x")] "nope" 5 = .ok "" :=
  ⟨by decide, read_or_blank_missing_key_blank [("other", "x")] "nope" (by decide) 5⟩

/-- C9 (amended): `cli_cleanup` with a non-null id prints the
`Cleanup by ID not implemented` message, terminates nothing, and returns
normally — no exception is raised. -/
theorem cli_cleanup_by_id_prints_not_implemented (id : String) (w : CleanupWorld) :
    cli_cleanup (some id) w
      = .ok [.printedMsg "\n[red]Cleanup by ID not implemented[/red]\n"] := rfl

/-- C9 (counterexample to the claim as stated): called with a concrete
non-null id, `cli_cleanup` completes with `.ok` — the caller observes
normal completion, not an error — and the only observable action is the
printed message (in particular, nothing is terminated: it is a no-op apart
from the print). -/
theorem cli_cleanup_by_id_no_error_counterexample :
    cli_cleanup (some "i-123") ⟨[], false, false, false, false⟩
      = .ok [.printedMsg "\n[red]Cleanup by ID not implemented[/red]\n"] := rfl

/-- C10: two `exec` calls differing only in `input` and/or `user` submit the
identical command batch to the relay and produce the identical
`_run_command` outcome and effects; the two arguments only influence the
warnings logged. -/
theorem exec_ignores_input_and_user (iid : String) (limitBytes : Nat)
    (cmd : List String) (cwd : Option String) (env : List (String × String))
    (timeout : Option Nat) (keyPref : String) (w : CommandWorld)
    (input1 input2 user1 user2 : Option String) :
    (execModel iid limitBytes cmd input1 cwd env user1 timeout keyPref w).2
      = (execModel iid limitBytes cmd input2 cwd env user2 timeout keyPref w).2 := rfl

/-- C2 (counterexample to the claim as stated): a completed invocation whose
status response carries no `ResponseCode` — the normal-completion path —
produces an `ExecOutcome` with return code `0`, a ZERO sentinel (and hence
`success = true`), contradicting the claimed non-zero default on that path. -/
theorem run_command_missing_rc_zero_counterexample :
    (runCommand "i-0" "p/" ⟨["true"], ["3600"]⟩ 10 none
        ⟨"c1", .completed, none, []⟩).1
      = .ok ⟨true, 0, "", ""⟩ := by decide

/-- C2 (amended): whenever `_run_command` returns an `ExecResult`, a missing
`ResponseCode` defaults to `1` (non-zero) only on the waiter-error path
(`we.last_response.get("ResponseCode", 1)`); on the normal-completion path
it defaults to `0` (`output_response.get("ResponseCode", 0)`). -/
theorem run_command_returncode_defaults
    (iid keyPref : String) (params : CommandParams) (limitBytes : Nat)
    (timeout : Option Nat) (w : CommandWorld) (r : ExecResult)
    (h : (runCommand iid keyPref params limitBytes timeout w).1 = .ok r) :
    r.returncode
      = (match w.waitOutcome with
         | .completed => w.invocationResponseCode.getD 0
         | .waiterError lastResp => waiterErrReturnCode lastResp) :=
  (runCommand_ok_spec iid keyPref params limitBytes timeout w r h).2

theorem run_command_returncode_defaults_witness :
    (runCommand "i-0" "q/" ⟨["true"], ["3600"]⟩ 10 none
        ⟨"c2", .waiterError (some ⟨some "Failed", none⟩), none, []⟩).1
      = .ok ⟨false, 1, "", ""⟩
    ∧ (⟨false, 1, "", ""⟩ : ExecResult).returncode
        = (match (⟨"c2", .waiterError (some ⟨some "Failed", none⟩), none, []⟩ :
              CommandWorld).waitOutcome with
           | .completed =>
             (⟨"c2", .waiterError (some ⟨some "Failed", none⟩), none, []⟩ :
                 CommandWorld).invocationResponseCode.getD 0
           | .waiterError lastResp => waiterErrReturnCode lastResp) :=
  ⟨by decide,
   run_command_returncode_defaults "i-0" "q/" ⟨["true"], ["3600"]⟩ 10 none
     ⟨"c2", .waiterError (some ⟨some "Failed", none⟩), none, []⟩
     ⟨false, 1, "", ""⟩ (by decide)⟩

/-- C5 (counterexample to the claim as stated): on the permission-denied
outcome — waiter error, stderr containing the exit-126 marker —
`_run_command` raises `PermissionError` before reaching the deletion calls:
no key and no prefix is deleted, so deletion is NOT independent of the
permission-denied outcome. -/
theorem run_command_permission_denied_skips_janitor_counterexample :
    (runCommand "i-1" "p/" ⟨["x"], ["60"]⟩ 1000 (some 60)
        ⟨"c1", .waiterError (some ⟨some "Failed", some 126⟩), none,
         [(stderrKeyOf "p/" "c1" "i-1", "failed to run commands: exit status 126")]⟩).1
      = .error (.permissionError
          "Permission denied executing command: failed to run commands: exit status 126")
    ∧ (runCommand "i-1" "p/" ⟨["x"], ["60"]⟩ 1000 (some 60)
        ⟨"c1", .waiterError (some ⟨some "Failed", some 126⟩), none,
         [(stderrKeyOf "p/" "c1" "i-1", "failed to run commands: exit status 126")]⟩).2.deletedKeys
      = []
    ∧ (runCommand "i-1" "p/" ⟨["x"], ["60"]⟩ 1000 (some 60)
        ⟨"c1", .waiterError (some ⟨some "Failed", some 126⟩), none,
         [(stderrKeyOf "p/" "c1" "i-1", "failed to run commands: exit status 126")]⟩).2.deletedPrefs
      = [] := by decide

/-- C5 (amended): the per-invocation artifacts — stdout key, stderr key and
the whole per-invocation prefix — are deleted exactly when `_run_command`
returns an `ExecResult` (normal completion, or waiter error resolved to a
success/failure outcome); on the permission-denied, timeout and truncation
paths the exception is raised before the deletion calls, which are skipped. -/
theorem run_command_janitor_on_result
    (iid keyPref : String) (params : CommandParams) (limitBytes : Nat)
    (timeout : Option Nat) (w : CommandWorld) (r : ExecResult)
    (h : (runCommand iid keyPref params limitBytes timeout w).1 = .ok r) :
    (runCommand iid keyPref params limitBytes timeout w).2.deletedKeys
      = [stdoutKeyOf keyPref w.commandId iid, stderrKeyOf keyPref w.commandId iid]
    ∧ (runCommand iid keyPref params limitBytes timeout w).2.deletedPrefs
      = [keyPref ++ w.commandId ++ "/"] := by
  have hs := (runCommand_ok_spec iid keyPref params limitBytes timeout w r h).1
  rw [hs]
  exact ⟨rfl, rfl⟩

theorem run_command_janitor_on_result_witness :
    (runCommand "i-2" "p/" ⟨["true"], ["3600"]⟩ 10 none
        ⟨"c3", .completed, some 0, []⟩).1 = .ok ⟨true, 0, "", ""⟩
    ∧ (runCommand "i-2" "p/" ⟨["true"], ["3600"]⟩ 10 none
        ⟨"c3", .completed, some 0, []⟩).2.deletedKeys
      = [stdoutKeyOf "p/" "c3" "i-2", stderrKeyOf "p/" "c3" "i-2"]
    ∧ (runCommand "i-2" "p/" ⟨["true"], ["3600"]⟩ 10 none
        ⟨"c3", .completed, some 0, []⟩).2.deletedPrefs = ["p/" ++ "c3" ++ "/"] :=
  ⟨by decide,
   (run_command_janitor_on_result "i-2" "p/" ⟨["true"], ["3600"]⟩ 10 none
     ⟨"c3", .completed, some 0, []⟩ ⟨true, 0, "", ""⟩ (by decide)).1,
   (run_command_janitor_on_result "i-2" "p/" ⟨["true"], ["3600"]⟩ 10 none
     ⟨"c3", .completed, some 0, []⟩ ⟨true, 0, "", ""⟩ (by decide)).2⟩

theorem retryFixedLoop_none_iff (check : Nat → Bool) (fuel i : Nat) :
    retryFixedLoop check fuel i = none
      ↔ ∀ j, i ≤ j → j < i + fuel → check j = false := by
  induction fuel generalizing i with
  | zero =>
    simp only [retryFixedLoop]
    constructor
    · intro _ j h1 h2
      omega
    · intro _
      trivial
  | succ n ih =>
    rw [retryFixedLoop]
    by_cases hc : check i
    · rw [if_pos hc]
      constructor
      · intro hcontra
        exact Option.noConfusion hcontra
      · intro hall
        have := hall i (Nat.le_refl i) (by omega)
        rw [hc] at this
        cases this
    · rw [if_neg hc, ih]
      constructor
      · intro hall j h1 h2
        rcases Nat.eq_or_lt_of_le h1 with rfl | hlt
        · exact Bool.eq_false_iff.mpr hc
        · exact hall j hlt (by omega)
      · intro hall j h1 h2
        exact hall j (by omega) (by omega)

theorem retryFixedLoop_some (check : Nat → Bool) (fuel i j : Nat)
    (h : retryFixedLoop check fuel i = some j) :
    i ≤ j ∧ j < i + fuel ∧ check j = true := by
  induction fuel generalizing i with
  | zero => simp [retryFixedLoop] at h
  | succ n ih =>
    rw [retryFixedLoop] at h
    by_cases hc : check i
    · rw [if_pos hc, Option.some.injEq] at h
      subst h
      exact ⟨Nat.le_refl i, by omega, hc⟩
    · rw [if_neg hc] at h
      obtain ⟨h1, h2, h3⟩ := ih (i + 1) h
      exact ⟨by omega, by omega, h3⟩

/-- C6 (counterexample to the claim as stated): an inventory response with
TWO records for the instance, the first of them `"Online"`, makes the
waiter signal readiness on the very first attempt — readiness is not
conditioned on exactly one matching record. -/
theorem wait_for_ssm_two_records_counterexample :
    waitForSsm (fun _ => [⟨"Online"⟩, ⟨"Online"⟩]) = some 0
    ∧ ([(⟨"Online"⟩ : InstanceInfo), ⟨"Online"⟩].length = 1) = False := by
  constructor
  · rfl
  · simp

/-- C6 (amended): the readiness waiter signals readiness exactly when the
inventory response is non-empty and its FIRST record's status is
`"Online"` (one or more records); it polls up to 20 attempts with a fixed
30-time-unit delay before every attempt (no backoff growth), and returns
`none` — tenacity's distinguishable `RetryError` — exactly when all 20
attempts were not ready. -/
theorem wait_for_ssm_spec (responses : Nat → List InstanceInfo) :
    (∀ l : List InstanceInfo, ssmReady l = true
        ↔ ∃ first rest, l = first :: rest ∧ first.pingStatus = "Online")
    ∧ (waitForSsm responses = none
        ↔ ∀ i, i < ssmMaxAttempts → ssmReady (responses i) = false)
    ∧ (∀ i, waitForSsm responses = some i →
        i < ssmMaxAttempts ∧ ssmReady (responses i) = true)
    ∧ ssmMaxAttempts = 20
    ∧ ∀ k, ssmDelayBeforeAttempt k = 30 := by
  refine ⟨?_, ?_, ?_, rfl, fun _ => rfl⟩
  · intro l
    cases l with
    | nil => simp [ssmReady]
    | cons first rest =>
      simp only [ssmReady, beq_iff_eq]
      constructor
      · intro h
        exact ⟨first, rest, rfl, h⟩
      · rintro ⟨f, r, heq, hp⟩
        rw [List.cons.injEq] at heq
        rw [heq.1]
        exact hp
  · rw [waitForSsm, retryFixedLoop_none_iff]
    constructor
    · intro hall i hi
      exact hall i (Nat.zero_le i) (by omega)
    · intro hall j _ hj
      exact hall j (by omega)
  · intro i hi
    obtain ⟨_, h2, h3⟩ := retryFixedLoop_some _ ssmMaxAttempts 0 i hi
    exact ⟨by omega, h3⟩

theorem wait_for_ssm_spec_witness :
    waitForSsm (fun _ => ([] : List InstanceInfo)) = none :=
  ((wait_for_ssm_spec (fun _ => [])).2.1).mpr (fun i _ => rfl)

/-- C7 (counterexample to the claim as stated): the pydantic constructor —
exercised directly by `config_deserialize` — accepts an `s3_key_prefix`
beginning with `/` without raising: a config value with a leading path
separator in its key prefix can exist. -/
theorem config_deserialize_leading_slash_counterexample :
    strStartsWith
      (config_deserialize "eu-west-2" "vpc-1" "sg-1" "subnet-1" "ami-1"
        "t3a.large" "prof" "bucket" "/bad" []).s3KeyPref "/" = true := by decide

/-- C7 (amended): the leading-slash rejection lives in `from_settings`, not
in the model constructor: every config produced by `from_settings` has a key
prefix that does not start with `/` (a resolved prefix starting with `/`
raises `ValueError` there), while direct construction
(`config_deserialize`) performs no such check. -/
theorem from_settings_no_leading_slash (settings : EcSettings)
    (kw : FromSettingsKwargs) (awsRegionEnv : Option String)
    (amiLookup : String → Option String) (c : Ec2SandboxEnvironmentConfig)
    (h : from_settings settings kw awsRegionEnv amiLookup = .ok c) :
    strStartsWith c.s3KeyPref "/" = false := by
  unfold from_settings at h
  split at h
  · exact Except.noConfusion h
  · split at h
    · exact Except.noConfusion h
    · split at h
      · exact Except.noConfusion h
      · split at h
        · exact Except.noConfusion h
        · rename_i hif
          split at h
          · rw [Except.ok.injEq] at h
            subst h
            exact Bool.eq_false_iff.mpr hif
          · exact Except.noConfusion h

theorem from_settings_no_leading_slash_witness :
    from_settings
        ⟨some "r1", some "v", some "sg", some "sn", some "am", some "t",
         some "pr", some "b", some "pre/", none⟩ {} none (fun _ => none)
      = .ok ⟨"r1", "v", "sg", "sn", "am", "t", "pr", "b", "pre/", []⟩
    ∧ strStartsWith
        (⟨"r1", "v", "sg", "sn", "am", "t", "pr", "b", "pre/", []⟩ :
          Ec2SandboxEnvironmentConfig).s3KeyPref "/" = false :=
  ⟨by decide,
   from_settings_no_leading_slash
     ⟨some "r1", some "v", some "sg", some "sn", some "am", some "t",
      some "pr", some "b", some "pre/", none⟩ {} none (fun _ => none)
     ⟨"r1", "v", "sg", "sn", "am", "t", "pr", "b", "pre/", []⟩ (by decide)⟩

theorem toList_mk (l : List Char) : (String.mk l).toList = l := rfl

theorem splitSep_not_mem (sep : Char) (l : List Char) (h : sep ∉ l) :
    splitSep sep l = [l] := by
  induction l with
  | nil => rfl
  | cons c rest ih =>
    rw [splitSep]
    have hc : ¬(c = sep) := fun hcc => h (hcc ▸ List.mem_cons_self c rest)
    rw [if_neg hc, ih fun hm => h (List.mem_cons_of_mem c hm)]

theorem splitSep_append_sep (sep : Char) (l rest : List Char) (h : sep ∉ l) :
    splitSep sep (l ++ sep :: rest) = l :: splitSep sep rest := by
  induction l with
  | nil => simp [splitSep]
  | cons c t ih =>
    rw [List.cons_append, splitSep]
    have hc : ¬(c = sep) := fun hcc => h (hcc ▸ List.mem_cons_self c t)
    rw [if_neg hc, ih fun hm => h (List.mem_cons_of_mem c hm)]

theorem splitSep_joinSep (sep : Char) (ps : List (List Char)) (hne : ps ≠ [])
    (h : ∀ p ∈ ps, sep ∉ p) :
    splitSep sep (joinSep sep ps) = ps := by
  induction ps with
  | nil => cases hne rfl
  | cons p qs ih =>
    cases qs with
    | nil =>
      simp only [joinSep]
      exact splitSep_not_mem sep p (h p (List.mem_cons_self p []))
    | cons q rs =>
      simp only [joinSep]
      rw [splitSep_append_sep sep p _ (h p (List.mem_cons_self p (q :: rs)))]
      rw [ih (by simp) fun x hx => h x (List.mem_cons_of_mem p hx)]

theorem parseTag_encode (k v : String) (hk : '=' ∉ k.toList)
    (hv : '=' ∉ v.toList) :
    parseTag (k.toList ++ '=' :: v.toList) = some (k, v) := by
  unfold parseTag
  rw [splitSep_append_sep '=' k.toList v.toList hk, splitSep_not_mem '=' v.toList hv]
  rfl

theorem parseTagList_encode (ps : List (String × String))
    (h : ∀ kv ∈ ps, '=' ∉ (kv.1 : String).toList ∧ '=' ∉ (kv.2 : String).toList) :
    parseTagList (ps.map fun kv => kv.1.toList ++ '=' :: kv.2.toList) = some ps := by
  induction ps with
  | nil => rfl
  | cons kv rest ih =>
    rw [List.map_cons, parseTagList,
      parseTag_encode kv.1 kv.2 (h kv (List.mem_cons_self kv rest)).1
        (h kv (List.mem_cons_self kv rest)).2,
      ih fun x hx => h x (List.mem_cons_of_mem kv hx)]

theorem unpackTags_encodeTags (ps : List (String × String))
    (h : ∀ kv ∈ ps,
        (';' ∉ (kv.1 : String).toList ∧ '=' ∉ (kv.1 : String).toList)
          ∧ (';' ∉ (kv.2 : String).toList ∧ '=' ∉ (kv.2 : String).toList)) :
    unpackTags (some (encodeTags ps)) = .ok ps := by
  cases ps with
  | nil => rfl
  | cons kv rest =>
    have hne :
        joinSep ';'
          ((kv :: rest).map fun x => (x.1 : String).toList ++ '=' :: (x.2 : String).toList)
          ≠ [] := by
      cases rest with
      | nil => simp [joinSep]
      | cons q rs => simp [joinSep]
    have hmem : ∀ p ∈ (kv :: rest).map
        (fun x => (x.1 : String).toList ++ '=' :: (x.2 : String).toList), ';' ∉ p := by
      intro p hp
      rw [List.mem_map] at hp
      obtain ⟨x, hx, rfl⟩ := hp
      intro hmemp
      rw [List.mem_append, List.mem_cons] at hmemp
      rcases hmemp with h1 | h2 | h3
      · exact (h x hx).1.1 h1
      · exact absurd h2 (by decide)
      · exact (h x hx).2.1 h3
    simp only [unpackTags, encodeTags, toList_mk]
    rw [if_neg hne]
    rw [splitSep_joinSep ';' _ (by simp) hmem]
    rw [parseTagList_encode (kv :: rest)
      fun x hx => ⟨(h x hx).1.2, (h x hx).2.2⟩]

/-- C8: for every tag string of the form `k1=v1;k2=v2` (encoded from an
ordered pair sequence whose keys and values are free of the two separator
characters), `unpack_tags` returns exactly that ordered pair sequence (the
round trip holds); but for a malformed input such as `"notag"` the raised
`ValueError`'s message does NOT name the offending input — the message
template was never interpolated (no f-string), so it carries the literal
placeholder text instead.  The source contradicts its own message template's
clear intent here. -/
theorem unpack_tags_roundtrip_and_error_message :
    (∀ ps : List (String × String),
        (∀ kv ∈ ps,
            (';' ∉ (kv.1 : String).toList ∧ '=' ∉ (kv.1 : String).toList)
              ∧ (';' ∉ (kv.2 : String).toList ∧ '=' ∉ (kv.2 : String).toList)) →
        unpackTags (some (encodeTags ps)) = .ok ps)
    ∧ unpackTags (some "notag") = .error tagsFormatErrMsg
    ∧ containsSub tagsFormatErrMsg "notag" = false
    ∧ containsSub tagsFormatErrMsg "\x7btags\x7d" = true :=
  ⟨unpackTags_encodeTags, by decide, by decide, by decide⟩

theorem unpack_tags_roundtrip_witness :
    encodeTags [("k1", "v1"), ("k2", "v2")] = "k1=v1;k2=v2"
    ∧ unpackTags (some (encodeTags [("k1", "v1"), ("k2", "v2")]))
        = .ok [("k1", "v1"), ("k2", "v2")] :=
  ⟨by decide, unpack_tags_roundtrip_and_error_message.1 _ (by decide)⟩

end Ec2Sandbox
